import Mathlib

/-!
Shallow embedding of the COVID-19 Chile visualization (src/assets/js/chart.js,
src/assets/js/utils.js, src/assets/js/config.js and the chart module variant in
src/unnamed/part_000). JavaScript numbers reaching the chart are the values of
the unary plus operator applied to CSV fields, modelled by JSNum (NaN, a signed
infinity, or a finite rational). Dates are modelled by their epoch day number
(the JS Date millisecond value divided by 86400000; every date built by the
code is a local midnight, and the d3 time scale is invariant under this affine
change of unit). Drawing is modelled as the list of primitive elements the
draw routines append to the SVG surface.
-/

namespace Infovis

/-- JavaScript number produced by unary plus: NaN, a signed infinity (the Bool
is true for positive infinity), or a finite value modelled as a rational. -/
inductive JSNum where
  | nan : JSNum
  | inf : Bool → JSNum
  | num : ℚ → JSNum
deriving DecidableEq, Repr

/-- JavaScript isNaN on a JSNum. -/
def JSNum.isNaNb : JSNum → Bool
  | .nan => true
  | _ => false

/-- JavaScript isFinite on a JSNum. -/
def JSNum.isFiniteb : JSNum → Bool
  | .num _ => true
  | _ => false

/-- The rational carried by a finite JSNum (only ever read on finite values). -/
def JSNum.toQ : JSNum → ℚ
  | .num q => q
  | _ => 0

/-- Value of a list of decimal digit characters. -/
def digitsToNat (cs : List Char) : ℕ :=
  cs.foldl (fun n c => 10 * n + (c.toNat - '0'.toNat)) 0

/-- Unsigned decimal literal: digits, optionally followed by a point and more
digits, with at least one digit in total (so "1.", ".5" and "10.13" parse and
"." does not), matching the JS Number grammar on the decimal fragment used by
this data set. -/
def parseUnsignedDec (cs : List Char) : Option ℚ :=
  let intPart := cs.takeWhile Char.isDigit
  let rest := cs.dropWhile Char.isDigit
  match rest with
  | [] => if intPart.isEmpty then none else some (digitsToNat intPart : ℚ)
  | '.' :: frac =>
    if frac.all Char.isDigit && !(intPart.isEmpty && frac.isEmpty) then
      some ((digitsToNat intPart : ℚ) + (digitsToNat frac : ℚ) / (10 : ℚ) ^ frac.length)
    else none
  | _ => none

/-- JS unary plus on a string (the `+d.deaths_7d` coercion in chart.js): the
string is trimmed; the empty string coerces to 0; an optional sign precedes
either "Infinity" or a decimal literal; anything else is NaN. (Hex, binary and
exponent literal forms never occur in this data and are modelled as NaN.) -/
def jsPlus (s : String) : JSNum :=
  let cs := ((s.data.dropWhile Char.isWhitespace).reverse.dropWhile Char.isWhitespace).reverse
  match cs with
  | [] => .num 0
  | _ =>
    let signBody : Bool × List Char :=
      match cs with
      | '-' :: r => (true, r)
      | '+' :: r => (false, r)
      | r => (false, r)
    if signBody.2 = "Infinity".data then .inf (!signBody.1)
    else
      match parseUnsignedDec signBody.2 with
      | some q => .num (if signBody.1 then -q else q)
      | none => .nan

/-- Epoch day number of a civil date (year, month 1..12, day). Follows the
standard days-from-civil computation that the JS Date epoch arithmetic
realizes, with floor division. -/
def civilToDays (y m d : ℤ) : ℤ :=
  let y2 := if m ≤ 2 then y - 1 else y
  let era := y2.fdiv 400
  let yoe := y2 - era * 400
  let mp := if 2 < m then m - 3 else m + 9
  let doy := (153 * mp + 2).fdiv 5 + (d - 1)
  let doe := yoe * 365 + yoe.fdiv 4 - yoe.fdiv 100 + doy
  era * 146097 + doe - 719468

/-- Civil date (year, month 1..12, day) of an epoch day number; inverse of
civilToDays. -/
def civilFromDays (z : ℤ) : ℤ × ℤ × ℤ :=
  let z2 := z + 719468
  let era := z2.fdiv 146097
  let doe := z2 - era * 146097
  let yoe := (doe - doe.fdiv 1460 + doe.fdiv 36524 - doe.fdiv 146096).fdiv 365
  let y := yoe + era * 400
  let doy := doe - (365 * yoe + yoe.fdiv 4 - yoe.fdiv 100)
  let mp := (5 * doy + 2).fdiv 153
  let d := doy - (153 * mp + 2).fdiv 5 + 1
  let m := if mp < 10 then mp + 3 else mp - 9
  (if m ≤ 2 then y + 1 else y, m, d)

/-- Epoch day of the JS `new Date(year, monthIndex, day)` constructor: the
month index and day roll over out-of-range values instead of failing. -/
def jsLocalDateDays (y mIdx day : ℤ) : ℤ :=
  let y2 := y + mIdx.fdiv 12
  let m0 := mIdx.emod 12
  civilToDays y2 (m0 + 1) 1 + (day - 1)

/-- Take greedily up to k leading decimal digits, returning them and the rest. -/
def takeDigits : ℕ → List Char → List Char × List Char
  | 0, cs => ([], cs)
  | _, [] => ([], [])
  | k + 1, c :: rest =>
    if c.isDigit then
      let p := takeDigits k rest
      (c :: p.1, p.2)
    else ([], c :: rest)

/-- The %Y-%m-%d pattern of d3.timeParse: exactly 4 digits of year, a dash,
1-2 digits of month, a dash, 1-2 digits of day, and nothing more. -/
def parseYMD (s : String) : Option (ℤ × ℤ × ℤ) :=
  let p1 := takeDigits 4 s.data
  if p1.1.length = 4 then
    match p1.2 with
    | '-' :: r2 =>
      let p2 := takeDigits 2 r2
      if p2.1.isEmpty then none
      else
        match p2.2 with
        | '-' :: r4 =>
          let p3 := takeDigits 2 r4
          if p3.1.isEmpty || !p3.2.isEmpty then none
          else some ((digitsToNat p1.1 : ℤ), (digitsToNat p2.1 : ℤ), (digitsToNat p3.1 : ℤ))
        | _ => none
    | _ => none
  else none

/-- d3.timeParse("%Y-%m-%d"): null (none) when the string does not match the
pattern, otherwise the epoch day of `new Date(y, m - 1, d)` (out-of-range
month or day values roll over, as the Date constructor does). -/
def parseDate (s : String) : Option ℤ :=
  (parseYMD s).map fun ymd => jsLocalDateDays ymd.1 (ymd.2.1 - 1) ymd.2.2

/-- Zero-pad a natural number to a given width (d3 "pad" helper). -/
def padNum (width : ℕ) (n : ℕ) : String :=
  let s := toString n
  if s.length < width then String.mk (List.replicate (width - s.length) '0') ++ s else s

/-- d3.timeFormat("%Y-%m-%d") on an epoch day (used by addAnnotations to match
a data point by date). -/
def formatYMD (t : ℤ) : String :=
  let c := civilFromDays t
  padNum 4 (c.1.emod 10000).toNat ++ "-" ++ padNum 2 c.2.1.toNat ++ "-" ++ padNum 2 c.2.2.toNat

/-- The shortMonths table of the Spanish locale installed by initChart in the
part_000 chart module via d3.timeFormatDefaultLocale. -/
def spanishShortMonths : List String :=
  ["Ene", "Feb", "Mar", "Abr", "May", "Jun", "Jul", "Ago", "Sep", "Oct", "Nov", "Dic"]

/-- utils.js formatAxisDate: d3.timeFormat("%b %Y") under the locale installed
by initChart, i.e. the locale's abbreviated month name followed by the
zero-padded 4-digit year. -/
def formatAxisDate (t : ℤ) : String :=
  let c := civilFromDays t
  (spanishShortMonths.getD (c.2.1 - 1).toNat "") ++ " " ++ padNum 4 (c.1.emod 10000).toNat

/-- A raw CSV row as d3.csv delivers it: one string per column of the header
`date,deaths_7d,vaccinated_pct`, a blank field being the empty string. -/
structure RawRow where
  date : String
  deaths_7d : String
  vaccinated_pct : String
deriving DecidableEq, Repr

/-- An in-memory data point as built by the map step of initChart: the parsed
date (none when d3.timeParse returned null) and the two unary-plus coercions. -/
structure DataPoint where
  date : Option ℤ
  deaths_7d : JSNum
  vaccinated_pct : JSNum
deriving DecidableEq, Repr

/-- The map step of initChart. -/
def parseRow (r : RawRow) : DataPoint :=
  ⟨parseDate r.date, jsPlus r.deaths_7d, jsPlus r.vaccinated_pct⟩

/-- The filter predicate of initChart. The two `typeof ... === "number"` checks
always hold after unary plus and are omitted; `d.date instanceof Date` is the
isSome test because d3.timeParse returns a Date or null. -/
def rowValid (d : DataPoint) : Bool :=
  d.date.isSome && !d.deaths_7d.isNaNb && !d.vaccinated_pct.isNaNb &&
    d.deaths_7d.isFiniteb && d.vaccinated_pct.isFiniteb

/-- The data-processing pipeline of initChart: map the rows, then filter. -/
def processData (raw : List RawRow) : List DataPoint :=
  (raw.map parseRow).filter rowValid

/-- utils.js validateData: a non-empty array all of whose elements pass the
per-row predicate (which is literally the same predicate as the loader's
filter). -/
def validateData (data : List DataPoint) : Bool :=
  !data.isEmpty && data.all rowValid

/-- The dates present in a data sequence (after the loader's filter, every
point contributes). -/
def dataDates (data : List DataPoint) : List ℤ :=
  data.filterMap (·.date)

/-- d3.extent over the dates of the data: none on an empty sequence, otherwise
the minimum and maximum. -/
def d3Extent (l : List ℤ) : Option (ℤ × ℤ) :=
  l.foldl (fun acc t =>
    match acc with
    | none => some (t, t)
    | some p => some (min p.1 t, max p.2 t)) none

/-- d3.max over the deaths_7d accessor: undefined values and NaN are skipped
(the loader has already removed non-finite values when this runs). -/
def d3MaxDeaths (data : List DataPoint) : Option ℚ :=
  data.foldl (fun acc d =>
    match d.deaths_7d with
    | .num q => some (match acc with | none => q | some m => max m q)
    | _ => acc) none

/-- 10 to an integer power, as a rational. -/
def qpow10 (z : ℤ) : ℚ :=
  if 0 ≤ z then ((10 : ℚ)) ^ z.toNat else (((10 : ℚ)) ^ (-z).toNat)⁻¹

/-- Floor of the base-10 logarithm of a positive rational (Math.floor(Math.log
(step) / Math.LN10) in d3.tickIncrement). -/
def floorLog10 (q : ℚ) : ℤ :=
  let z : ℤ := ((Nat.digits 10 q.num.natAbs).length : ℤ) - ((Nat.digits 10 q.den).length : ℤ)
  if q < qpow10 z then z - 1 else z

/-- The 10/5/2/1 snapping factor of d3.tickIncrement. The thresholds are the
square roots of 50, 10 and 2; error is in [1, 10) so comparing squares is
exact. -/
def tickErrorFactor (error : ℚ) : ℚ :=
  if 50 ≤ error ^ 2 then 10 else if 10 ≤ error ^ 2 then 5 else if 2 ≤ error ^ 2 then 2 else 1

/-- d3.tickIncrement(start, stop, count) for stop > start (the only regime the
nice loop uses on a non-degenerate domain; a non-positive raw step returns 0,
on which the nice loop keeps the domain unchanged, matching the break). -/
def tickIncrement (start stop count : ℚ) : ℚ :=
  let step := (stop - start) / count
  if step ≤ 0 then 0
  else
    let power := floorLog10 step
    let error := step / qpow10 power
    if 0 ≤ power then tickErrorFactor error * qpow10 power
    else -(qpow10 (-power)) / tickErrorFactor error

/-- The iteration of d3 linear.nice (maxIter = 10): recompute the tick step and
widen the domain to multiples of it until the step stabilizes; if the loop
exhausts or the step is zero the original domain is kept. -/
def niceLoop (orig : ℚ × ℚ) (count : ℚ) : ℕ → Option ℚ → ℚ → ℚ → ℚ × ℚ
  | 0, _, _, _ => orig
  | fuel + 1, prestep, start, stop =>
    let step := tickIncrement start stop count
    if some step = prestep then (start, stop)
    else if 0 < step then
      niceLoop orig count fuel (some step) ((⌊start / step⌋ : ℤ) * step) ((⌈stop / step⌉ : ℤ) * step)
    else if step < 0 then
      niceLoop orig count fuel (some step) ((⌈start * step⌉ : ℤ) / step) ((⌊stop * step⌋ : ℤ) / step)
    else orig

/-- The niced upper bound of the left y domain [0, m] (.nice() with the default
count of 10). -/
def niceUpper (m : ℚ) : ℚ :=
  (niceLoop (0, m) 10 10 none 0 m).2

/-- d3 scaleLinear with domain [a, b] and range [r0, r1], without clamping: a
degenerate domain maps every input to the middle of the range (the d3
normalize function returns the constant 0.5 when b - a is 0). -/
def linearScale (a b r0 r1 x : ℚ) : ℚ :=
  if b = a then r0 + (1 / 2) * (r1 - r0) else r0 + (x - a) / (b - a) * (r1 - r0)

/-- The time scale of buildScales: domain [minDate, maxDate] to range
[0, width]. -/
def xScaleFun (a b : ℤ) (w t : ℚ) : ℚ :=
  linearScale (a : ℚ) (b : ℚ) 0 w t

/-- The three scales handed to the draw routines, as plain functions. -/
structure Scales where
  x : ℚ → ℚ
  yLeft : ℚ → ℚ
  yRight : ℚ → ℚ

/-- The drawable area (CHART_CONFIG width/height minus the margins). -/
structure ChartConfig where
  width : ℚ
  height : ℚ
deriving DecidableEq, Repr

/-- The config object both initChart and the resize handler build from
CHART_CONFIG in config.js. -/
def mainConfig : ChartConfig :=
  ⟨720 - 56 - 92, 400 - 56 - 65⟩

/-- chart module buildScales: the time scale over the date extent, the left
linear scale over [0, max deaths].nice(), and the fixed right scale over
[0, 100]; all ranges are inverted for y. (On data the orchestrator passes,
the sequence is non-empty, so the extent and the max exist; the degenerate
fallbacks 0 mirror the undefined domain entries only formally.) -/
def buildScales (data : List DataPoint) (cfg : ChartConfig) : Scales :=
  let ext := (d3Extent (dataDates data)).getD (0, 0)
  let upper := niceUpper ((d3MaxDeaths data).getD 0)
  { x := xScaleFun ext.1 ext.2 cfg.width
    yLeft := linearScale 0 upper cfg.height 0
    yRight := linearScale 0 100 cfg.height 0 }

/-- utils.js isMobile: window.innerWidth ≤ breakpoint. -/
def isMobileW (innerWidth breakpoint : ℚ) : Bool :=
  innerWidth ≤ breakpoint

/-- BREAKPOINTS.mobile from config.js. -/
def mobileBreakpoint : ℚ := 480

/-- utils.js getTickCount: 4 on mobile, 6 otherwise. -/
def getTickCount (mobile : Bool) : ℕ :=
  if mobile then 4 else 6

/-- A line style as in config.js LINE_STYLES. -/
structure LineStyle where
  strokeWidth : ℚ
  strokeOpacity : ℚ
deriving DecidableEq, Repr

/-- LINE_STYLES.deaths. -/
def deathsLineStyle : LineStyle := ⟨9 / 5, 4 / 5⟩

/-- LINE_STYLES.vaccination. -/
def vaccinationLineStyle : LineStyle := ⟨9 / 5, 4 / 5⟩

/-- LINE_STYLES.mobile.deaths. -/
def mobileDeathsLineStyle : LineStyle := ⟨3 / 2, 3 / 4⟩

/-- utils.js getResponsiveLineStyle: spread the mobile style over the base
style when on mobile (the mobile style carries both fields, so both are
overridden). -/
def getResponsiveLineStyle (base mobileStyle : LineStyle) (mobile : Bool) : LineStyle :=
  if mobile then { base with strokeWidth := mobileStyle.strokeWidth,
                             strokeOpacity := mobileStyle.strokeOpacity }
  else base

/-- utils.js debounce, as a discrete-event machine. The closure state is the
pending timer: an optional (fire time, captured args). Each call first lets a
pending timer whose time has already arrived fire (emitting its invocation),
then clears any still-pending timer and schedules a new one at now + wait
(clearTimeout followed by setTimeout in the source). -/
def debounceFires {α : Type} (wait : ℚ) : Option (ℚ × α) → List (ℚ × α) → List (ℚ × α)
  | pending, [] => (match pending with | some pf => [pf] | none => [])
  | pending, (t, a) :: rest =>
    match pending with
    | some pf =>
      if pf.1 ≤ t then pf :: debounceFires wait (some (t + wait, a)) rest
      else debounceFires wait (some (t + wait, a)) rest
    | none => debounceFires wait (some (t + wait, a)) rest

/-- All invocations of the debounced function produced by a time-ordered list
of calls, starting with no pending timer. -/
def debounceRun {α : Type} (wait : ℚ) (events : List (ℚ × α)) : List (ℚ × α) :=
  debounceFires wait none events

/-- A drawing primitive appended to the SVG surface. Axes are abstracted to
their requested tick count (the d3 axis generator is opaque); paths carry the
maximal runs of defined points that the d3 line generator receives together
with the applied stroke style; container groups and pure style attributes are
not modelled as separate elements. -/
inductive Prim where
  | axis (cls : String) (ticks : ℕ)
  | path (cls : String) (segs : List (List (ℚ × ℚ))) (strokeWidth strokeOpacity : ℚ)
  | vline (cls : String) (x y1 y2 : ℚ)
  | seg (x1 y1 x2 y2 : ℚ)
  | text (cls : String) (x y : ℚ) (content : String)
  | marker (id : String)
deriving DecidableEq, Repr

/-- A stack of text lines at a fixed line height (the index * 12 pattern used
for multi-line milestone labels, the Omicron call-out and the comments). -/
def textLines (cls : String) (x y lh : ℚ) : List String → List Prim
  | [] => []
  | s :: rest => Prim.text cls x y s :: textLines cls x (y + lh) lh rest

/-- The contents of the text primitives of a list, in order. -/
def textPrims (ps : List Prim) : List String :=
  ps.filterMap fun p =>
    match p with
    | .text _ _ _ c => some c
    | _ => none

/-- The maximal runs of points whose `defined` predicate holds, exactly as the
d3 line generator splits its input: an undefined point ends the current run
and is skipped. -/
def segmentsBy (defd : DataPoint → Bool) (pt : DataPoint → ℚ × ℚ) :
    List DataPoint → List (List (ℚ × ℚ))
  | [] => []
  | a :: rest =>
    let tailSegs := segmentsBy defd pt rest
    if defd a then
      match rest with
      | [] => [[pt a]]
      | b :: _ =>
        if defd b then
          match tailSegs with
          | seg :: more => (pt a :: seg) :: more
          | [] => [[pt a]]
        else [pt a] :: tailSegs
    else tailSegs

/-- The x input the scales receive for a point (JS hands the Date itself; the
loader guarantees it is present on drawn data, so the default is never the
value actually read there). -/
def dateQ (d : DataPoint) : ℚ :=
  ((d.date.getD 0 : ℤ) : ℚ)

/-- The `defined` predicate of the deaths line generator in drawLines:
d.date && !isNaN(d.deaths_7d) && isFinite(d.deaths_7d). -/
def deathsDefined (d : DataPoint) : Bool :=
  d.date.isSome && !d.deaths_7d.isNaNb && d.deaths_7d.isFiniteb

/-- The `defined` predicate of the vaccination line generator in drawLines. -/
def vaccDefined (d : DataPoint) : Bool :=
  d.date.isSome && !d.vaccinated_pct.isNaNb && d.vaccinated_pct.isFiniteb

/-- The point runs of the deaths line path. -/
def deathsSegments (data : List DataPoint) (s : Scales) : List (List (ℚ × ℚ)) :=
  segmentsBy deathsDefined (fun d => (s.x (dateQ d), s.yLeft d.deaths_7d.toQ)) data

/-- The point runs of the vaccination line path. -/
def vaccSegments (data : List DataPoint) (s : Scales) : List (List (ℚ × ℚ)) :=
  segmentsBy vaccDefined (fun d => (s.x (dateQ d), s.yRight d.vaccinated_pct.toQ)) data

/-- chart module drawAxes, abstracted to the three axis groups it appends with
their requested tick counts (the part_000 variant requests 5 left and 4 right
ticks; the chart.js variant requests 6 and 5 — the x axis request, the subject
of the tick-count claim, is getTickCount in both). -/
def drawAxes (mobile : Bool) : List Prim :=
  [Prim.axis "axis axis--x" (getTickCount mobile),
   Prim.axis "axis axis--left" 5,
   Prim.axis "axis axis--right" 4]

/-- chart module drawLines: the deaths path with the responsive style and the
vaccination path with its fixed style (identical in both chart variants). -/
def drawLines (mobile : Bool) (data : List DataPoint) (s : Scales) : List Prim :=
  let deathsStyle := getResponsiveLineStyle deathsLineStyle mobileDeathsLineStyle mobile
  [Prim.path "line line--deaths" (deathsSegments data s)
     deathsStyle.strokeWidth deathsStyle.strokeOpacity,
   Prim.path "line line--vaccination" (vaccSegments data s)
     vaccinationLineStyle.strokeWidth vaccinationLineStyle.strokeOpacity]

/-- A milestone label: config.js stores either a single string (first config
variant) or an array of lines (the variant imported by part_000). -/
inductive MLabel where
  | single (s : String)
  | multi (ls : List String)
deriving DecidableEq, Repr

/-- A MILESTONES entry of config.js. -/
structure Milestone where
  date : String
  label : MLabel
  style : String
  strokeWidth : ℚ
  dashArray : String
  yOffset : ℚ
deriving DecidableEq, Repr

/-- The MILESTONES table of the config variant imported by the part_000 chart
module (the other variant adds a third, single-label Omicron milestone). -/
def MILESTONES : List Milestone :=
  [⟨"2021-02-03", .multi ["Inicio", "Vacunación"], "primary", 1, "2,3", -40⟩,
   ⟨"2021-08-11", .multi ["Inicio", "Refuerzo"], "secondary", 1, "2,3", -40⟩]

/-- The guard of addMilestones: x >= 0 && x <= width. -/
def milestoneInRange (x w : ℚ) : Bool :=
  decide (0 ≤ x) && decide (x ≤ w)

/-- The primitives one drawn milestone appends: the vertical dashed guide, its
label line(s) at translate(x, yOffset), the downward arrow whose start depends
on the label shape, and the arrow marker definition the first time around. -/
def milestonePrimsFor (m : Milestone) (x h : ℚ) (markerAdded : Bool) : List Prim :=
  [Prim.vline ("milestone milestone--" ++ m.style) x 0 h]
  ++ (match m.label with
      | .single s => [Prim.text "milestone-text" x m.yOffset s]
      | .multi ls => textLines "milestone-text" x m.yOffset 12 ls)
  ++ (let arrowY := m.yOffset + (match m.label with
        | .multi ls => (ls.length : ℚ) * 12 + 3
        | .single _ => 8)
      [Prim.seg x arrowY x (arrowY + 10)])
  ++ (if markerAdded then [] else [Prim.marker "milestone-arrow"])

/-- The forEach loop of addMilestones: each milestone whose computed x lies in
[0, width] appends its primitives; the others append nothing; the Bool tracks
whether the arrow marker has been defined yet. -/
def addMilestonesAux (xOf : String → ℚ) (w h : ℚ) : Bool → List Milestone → List Prim
  | _, [] => []
  | ma, m :: rest =>
    let x := xOf m.date
    if milestoneInRange x w then
      milestonePrimsFor m x h ma ++ addMilestonesAux xOf w h true rest
    else addMilestonesAux xOf w h ma rest

/-- chart module addMilestones over the time scale (a milestone date that
failed to parse would be handed to the scale as null; none occurs in the
config tables, and the formal default 0 mirrors that dead branch). -/
def addMilestones (ms : List Milestone) (s : Scales) (cfg : ChartConfig) : List Prim :=
  addMilestonesAux (fun ds => s.x (((parseDate ds).getD 0 : ℤ) : ℚ)) cfg.width cfg.height false ms

/-- CONTENT.labels of the config variant imported by part_000. -/
def deathsSeriesLabel : String := "Fallecidos (a 7 días)"

/-- CONTENT.labels.vaccination. -/
def vaccinationSeriesLabel : String := "% Vacunados"

/-- part_000 addDirectLabels: nothing on empty data; otherwise the source
footnote below the plot and one end-of-line label per series next to the last
data point. -/
def addDirectLabels (data : List DataPoint) (s : Scales) (cfg : ChartConfig) : List Prim :=
  if data.isEmpty then []
  else
    [Prim.text "source-footnote" 0 (cfg.height + 35) "Fuente: MinCiencia y MINSAL."]
    ++ (match data.getLast? with
        | some lastP =>
          [Prim.text "direct-label" (cfg.width - 5) (s.yLeft lastP.deaths_7d.toQ - 35)
             deathsSeriesLabel,
           Prim.text "direct-label" (cfg.width - 5) (s.yRight lastP.vaccinated_pct.toQ - 5)
             vaccinationSeriesLabel]
        | none => [])

/-- A COMMENTS entry of config.js (second variant). Every entry carries a
single date, so the dateRange midpoint branch of the drawing loop is dead for
this configuration. -/
structure ChartComment where
  id : String
  date : String
  yType : String
  yValue : ℚ
  anchor : String
  dx : ℚ
  dy : ℚ
  text : List String
deriving DecidableEq, Repr

/-- The COMMENTS table of config.js. -/
def COMMENTS : List ChartComment :=
  [⟨"yellow", "2020-07-15", "left", 24, "start", 0, 0,
    ["Cuarentena total", "generalizada"]⟩,
   ⟨"blue", "2021-03-15", "left", 135, "middle", 0, -10,
    ["Baja vacunación", "y cepa Gamma"]⟩,
   ⟨"violet", "2021-11-10", "left", 90, "middle", 0, 6,
    ["40–60% con 1 dosis", "e inmunidad natural"]⟩]

/-- CONTENT.omicronAnnotation.date. -/
def omicronDate : String := "2022-03-01"

/-- CONTENT.omicronAnnotation.text. -/
def omicronTextContent : List String :=
  ["La nueva cepa Ómicron,", "altamente contagiosa y", "con múltiples mutaciones"]

/-- part_000 addAnnotations: the arrowhead marker, the Omicron call-out (text
lines plus a horizontal arrow, positioned from the data point whose formatted
date equals the configured date, or at 30% of the height when absent) and the
free-text comments — none of which is guarded by any range check on the
computed x. -/
def addAnnots (data : List DataPoint) (s : Scales) (h : ℚ) : List Prim :=
  let omicronX := s.x (((parseDate omicronDate).getD 0 : ℤ) : ℚ)
  let omicronFound := data.find? fun d => formatYMD (d.date.getD 0) == omicronDate
  let omicronDeathsY :=
    match omicronFound with
    | some d => s.yLeft d.deaths_7d.toQ
    | none => h * (3 / 10)
  let omicronY := omicronDeathsY - 3
  [Prim.marker "arrowhead"]
  ++ textLines "omicron-text" (omicronX + 35) omicronY 12 omicronTextContent
  ++ [Prim.seg (omicronX + 35) omicronDeathsY omicronX omicronDeathsY]
  ++ COMMENTS.flatMap (fun c =>
      let x := s.x (((parseDate c.date).getD 0 : ℤ) : ℚ)
      let yS := if c.yType == "right" then s.yRight else s.yLeft
      let y := yS c.yValue
      textLines ("comment comment--" ++ c.id) (x + c.dx) (y + c.dy) 12 c.text)

/-- The full draw sequence both initChart and the resize handler of the
part_000 chart module run: axes, lines, milestones, direct labels,
annotations, all against freshly built scales. -/
def drawAll (innerWidth : ℚ) (data : List DataPoint) (cfg : ChartConfig) : List Prim :=
  let mobile := isMobileW innerWidth mobileBreakpoint
  let s := buildScales data cfg
  drawAxes mobile ++ drawLines mobile data s ++ addMilestones MILESTONES s cfg
    ++ addDirectLabels data s cfg ++ addAnnots data s cfg.height

/-- The debounced resize handler body of makeResponsive: clear the surface
wholesale, then redraw the full pipeline from the in-memory data when it is
non-empty. The result never depends on what was on the surface. -/
def redrawModel (innerWidth : ℚ) (data : List DataPoint) (cfg : ChartConfig)
    (_surface : List Prim) : List Prim :=
  if data.isEmpty then [] else drawAll innerWidth data cfg

/-- initChart on already-fetched rows: process them; an empty filtered
sequence throws "No valid data found", which the catch turns into the fallback
message with nothing drawn; otherwise the sequence is kept and the full
pipeline draws once. -/
def initChartModel (innerWidth : ℚ) (raw : List RawRow) :
    Except String (List DataPoint) × List Prim :=
  let data := processData raw
  if data.isEmpty then (Except.error "No valid data found", [])
  else (Except.ok data, drawAll innerWidth data mainConfig)

/-- The scenario CSV of the missing-value property: blank deaths_7d fields
from 2020-12-24 through 2020-12-31 with the vaccination percentages of the
corrected data file, then a complete row on 2021-01-01. -/
def scenarioRows : List RawRow :=
  [⟨"2020-12-24", "", "0.1"⟩, ⟨"2020-12-25", "", "0.2"⟩, ⟨"2020-12-26", "", "0.4"⟩,
   ⟨"2020-12-27", "", "0.7"⟩, ⟨"2020-12-28", "", "1.2"⟩, ⟨"2020-12-29", "", "2.1"⟩,
   ⟨"2020-12-30", "", "3.8"⟩, ⟨"2020-12-31", "", "6.2"⟩, ⟨"2021-01-01", "10", "10.13"⟩]

/-- The loaded sequence of the scenario CSV. -/
def scenarioData : List DataPoint := processData scenarioRows

/-- The scales initChart builds over the scenario data. -/
def scenarioScales : Scales := buildScales scenarioData mainConfig

/-- The row of the testable-properties claim on value ranges: a negative
deaths value and a vaccination percentage above 100. -/
def badRangeRow : RawRow := ⟨"2021-01-01", "-5", "150"⟩

/-- A well-formed row used by several witnesses. -/
def goodRow : RawRow := ⟨"2021-01-01", "1", "2"⟩

/-- The per-row range predicate the spec asserts of every loaded row. -/
def withinSpecRanges (p : DataPoint) : Prop :=
  0 ≤ p.deaths_7d.toQ ∧ 0 ≤ p.vaccinated_pct.toQ ∧ p.vaccinated_pct.toQ ≤ 100

/-- Strictly increasing date list (sorted ascending with no duplicates). -/
def datesSortedB : List ℤ → Bool
  | [] => true
  | [_] => true
  | a :: b :: rest => decide (a < b) && datesSortedB (b :: rest)

/-- C1 counterexample: on the scenario CSV the blank deaths_7d field coerces
to the number 0 (unary plus on the empty string), so the 2020-12-24 row is
defined for the deaths line generator and the deaths path is a single
unbroken run of all nine points — the deaths line is not broken at that
date, refuting the claim that only the vaccination series keeps a point
there. -/
theorem blank_deaths_row_not_broken :
    (parseRow ⟨"2020-12-24", "", "0.1"⟩).deaths_7d = JSNum.num 0
    ∧ deathsDefined (parseRow ⟨"2020-12-24", "", "0.1"⟩) = true
    ∧ (deathsSegments scenarioData scenarioScales).map List.length = [9] :=
  ⟨by decide, by decide, by decide⟩

/-- C1 amended: rows with a blank deaths_7d are kept by the loader and
contribute a point to BOTH lines — the blank coerces to the number 0 — so the
vaccination line is a single continuous run from 0.1 to 10.13 percent and the
deaths line is also a single continuous run, passing through the value 0 on
the blank dates rather than breaking there. -/
theorem blank_deaths_rows_kept_lines_continuous :
    scenarioData.length = 9
    ∧ (scenarioData.take 8).all (fun d => d.deaths_7d == JSNum.num 0) = true
    ∧ scenarioData.map (fun d => d.vaccinated_pct) =
        [.num (1/10), .num (1/5), .num (2/5), .num (7/10), .num (6/5), .num (21/10),
         .num (19/5), .num (31/5), .num (1013/100)]
    ∧ (vaccSegments scenarioData scenarioScales).map List.length = [9]
    ∧ (deathsSegments scenarioData scenarioScales).map List.length = [9] := by
  refine ⟨by decide, by decide, ?_, by decide, by decide⟩
  have h1 : parseDate "2020-12-24" = some 18620 := by decide
  have h2 : parseDate "2020-12-25" = some 18621 := by decide
  have h3 : parseDate "2020-12-26" = some 18622 := by decide
  have h4 : parseDate "2020-12-27" = some 18623 := by decide
  have h5 : parseDate "2020-12-28" = some 18624 := by decide
  have h6 : parseDate "2020-12-29" = some 18625 := by decide
  have h7 : parseDate "2020-12-30" = some 18626 := by decide
  have h8 : parseDate "2020-12-31" = some 18627 := by decide
  have h9 : parseDate "2021-01-01" = some 18628 := by decide
  simp [scenarioData, scenarioRows, processData, parseRow, jsPlus, parseUnsignedDec,
        digitsToNat, rowValid, h1, h2, h3, h4, h5, h6, h7, h8, h9,
        JSNum.isNaNb, JSNum.isFiniteb]
  norm_num

/-- C2: initChart throws the no-valid-data error exactly when the filtered
sequence is empty; on that path nothing is drawn (the fallback message
replaces the chart); otherwise the non-empty filtered sequence is kept and
the full pipeline draws. -/
theorem load_fails_iff_filtered_empty (iw : ℚ) (raw : List RawRow) :
    ((initChartModel iw raw).1 = Except.error "No valid data found" ↔ processData raw = [])
    ∧ (processData raw = [] → (initChartModel iw raw).2 = [])
    ∧ (processData raw ≠ [] →
        initChartModel iw raw =
          (Except.ok (processData raw), drawAll iw (processData raw) mainConfig)) := by
  by_cases h : processData raw = []
  · simp [initChartModel, h]
  · simp [initChartModel, h]

/-- C2 witness: the header-only CSV yields no rows, the error, and no drawing
primitives; a CSV with one valid row loads it and draws. -/
theorem load_fails_iff_filtered_empty_witness :
    (initChartModel 800 []).2 = []
    ∧ initChartModel 800 [goodRow] =
        (Except.ok (processData [goodRow]), drawAll 800 (processData [goodRow]) mainConfig) :=
  ⟨(load_fails_iff_filtered_empty 800 []).2.1 rfl,
   (load_fails_iff_filtered_empty 800 [goodRow]).2.2 (by decide)⟩

/-- C7 counterexample: the axis date formatter renders 2021-02-03 as
"Feb 2021" — the configured Spanish shortMonths are capitalized — not as the
lowercase "feb 2021" the claim states. -/
theorem axis_date_label_not_lowercase :
    (parseDate "2021-02-03").map formatAxisDate = some "Feb 2021"
    ∧ some "Feb 2021" ≠ some "feb 2021" :=
  ⟨by decide, by decide⟩

/-- C7 amended: formatting 2021-02-03 through the axis date formatter yields
the abbreviated label "Feb 2021" in the configured Spanish locale (whose
shortMonths table is capitalized). -/
theorem axis_date_label_feb_capitalized :
    (parseDate "2021-02-03").map formatAxisDate = some "Feb 2021" := by decide

/-- C8: the render pipeline (clear the surface, then redraw everything from
the same data and size) is idempotent — running it twice yields exactly the
primitives, and hence the element count, of a single run. -/
theorem render_pipeline_idempotent (iw : ℚ) (data : List DataPoint) (cfg : ChartConfig)
    (surface : List Prim) :
    redrawModel iw data cfg (redrawModel iw data cfg surface) = redrawModel iw data cfg surface
    ∧ (redrawModel iw data cfg (redrawModel iw data cfg surface)).length
        = (redrawModel iw data cfg surface).length :=
  ⟨rfl, rfl⟩

/-- Skipped milestones contribute nothing: the milestone loop is unchanged by
removing the out-of-range entries up front. -/
theorem addMilestonesAux_filter (xOf : String → ℚ) (w h : ℚ) :
    ∀ (ms : List Milestone) (ma : Bool),
      addMilestonesAux xOf w h ma ms =
        addMilestonesAux xOf w h ma (ms.filter fun m => milestoneInRange (xOf m.date) w)
  | [], _ => rfl
  | m :: rest, ma => by
    by_cases hc : milestoneInRange (xOf m.date) w = true
    · simp only [addMilestonesAux, List.filter_cons, hc, if_true]
      rw [addMilestonesAux_filter xOf w h rest true]
    · simp only [addMilestonesAux, List.filter_cons, hc, Bool.false_eq_true, if_false]
      rw [addMilestonesAux_filter xOf w h rest ma]

/-- C3 counterexample: with the scenario data loaded (time domain 2020-12-24
through 2021-01-01), the "yellow" comment dated 2020-07-15 maps to a negative
x and the Omicron call-out dated 2022-03-01 maps beyond the width, yet
addAnnotations emits text primitives for both — annotations outside the time
domain are drawn, not clipped. -/
theorem off_domain_callout_still_drawn :
    scenarioScales.x (((parseDate "2020-07-15").getD 0 : ℤ) : ℚ) < 0
    ∧ "Cuarentena total" ∈ textPrims (addAnnots scenarioData scenarioScales mainConfig.height)
    ∧ mainConfig.width < scenarioScales.x (((parseDate omicronDate).getD 0 : ℤ) : ℚ)
    ∧ "La nueva cepa Ómicron," ∈
        textPrims (addAnnots scenarioData scenarioScales mainConfig.height) := by
  have hext : d3Extent (dataDates scenarioData) = some (18620, 18628) := by decide
  have h1 : parseDate "2020-07-15" = some 18458 := by decide
  have h2 : parseDate omicronDate = some 19052 := by decide
  refine ⟨?_, by decide, ?_, by decide⟩
  · simp [scenarioScales, buildScales, hext, h1, xScaleFun, linearScale, mainConfig]
    norm_num
  · simp [scenarioScales, buildScales, hext, h2, xScaleFun, linearScale, mainConfig]
    norm_num

/-- C3 amended: milestones are clipped — the milestone loop equals the loop
over only the entries whose x lies in [0, width], and the minimum loaded date
maps to x = 0, which is in range whenever the width is non-negative — but the
annotations (the Omicron call-out and the comments) are emitted
unconditionally: their text inventory is the same for every data set and
every scale, including scales that place their dates outside the domain. -/
theorem milestones_clipped_callouts_not :
    (∀ (xOf : String → ℚ) (w h : ℚ) (ma : Bool) (ms : List Milestone),
      addMilestonesAux xOf w h ma ms =
        addMilestonesAux xOf w h ma (ms.filter fun m => milestoneInRange (xOf m.date) w))
    ∧ (∀ (a b : ℤ) (w : ℚ), a < b → 0 ≤ w →
        xScaleFun a b w ((a : ℤ) : ℚ) = 0
        ∧ milestoneInRange (xScaleFun a b w ((a : ℤ) : ℚ)) w = true)
    ∧ (∀ (data : List DataPoint) (s : Scales) (h : ℚ),
        textPrims (addAnnots data s h) =
          omicronTextContent ++ COMMENTS.flatMap fun c => c.text) := by
  refine ⟨fun xOf w h ma ms => addMilestonesAux_filter xOf w h ms ma, ?_,
          fun data s h => rfl⟩
  intro a b w hab hw
  have hne : ((b : ℤ) : ℚ) ≠ ((a : ℤ) : ℚ) := by exact_mod_cast hab.ne'
  have hx : xScaleFun a b w ((a : ℤ) : ℚ) = 0 := by
    simp [xScaleFun, linearScale, hne]
  exact ⟨hx, by simp [milestoneInRange, hx, hw]⟩

/-- C3 witness: over the scenario domain [18620, 18628] with width 572, a
milestone dated at the minimum maps to x = 0 and passes the range guard. -/
theorem milestones_clipped_callouts_not_witness :
    xScaleFun 18620 18628 572 ((18620 : ℤ) : ℚ) = 0
    ∧ milestoneInRange (xScaleFun 18620 18628 572 ((18620 : ℤ) : ℚ)) 572 = true :=
  milestones_clipped_callouts_not.2.1 18620 18628 572 (by decide) (by norm_num)

/-- C4 counterexample: loading a CSV row with deaths_7d = -5 and
vaccinated_pct = 150 succeeds and keeps that row — the loader checks only
finiteness, never sign or range — so a loaded row can violate deaths_7d ≥ 0
and vaccinated_pct ≤ 100. -/
theorem loaded_row_outside_spec_ranges :
    processData [badRangeRow] = [⟨some 18628, JSNum.num (-5), JSNum.num 150⟩]
    ∧ (⟨some 18628, JSNum.num (-5), JSNum.num 150⟩ : DataPoint) ∈ processData [badRangeRow]
    ∧ ¬ withinSpecRanges ⟨some 18628, JSNum.num (-5), JSNum.num 150⟩ := by
  refine ⟨by decide, by decide, fun hcon => absurd hcon.1 ?_⟩
  norm_num [withinSpecRanges, JSNum.toQ]

/-- C4 amended: every row of a loaded sequence has a successfully parsed date
and finite, non-NaN numeric fields; no sign or range constraint is enforced,
so deaths_7d may be negative and vaccinated_pct may leave [0, 100]. -/
theorem loaded_rows_date_and_finiteness (raw : List RawRow) (p : DataPoint)
    (hp : p ∈ processData raw) :
    p.date.isSome = true ∧ p.deaths_7d.isNaNb = false ∧ p.vaccinated_pct.isNaNb = false
    ∧ p.deaths_7d.isFiniteb = true ∧ p.vaccinated_pct.isFiniteb = true := by
  have hv := List.of_mem_filter hp
  simp only [rowValid, Bool.and_eq_true, Bool.not_eq_true'] at hv
  exact ⟨hv.1.1.1.1, hv.1.1.1.2, hv.1.1.2, hv.1.2, hv.2⟩

/-- C4 witness: the well-formed row is loaded with a parsed date and finite
fields. -/
theorem loaded_rows_date_and_finiteness_witness :
    (parseRow goodRow).date.isSome = true
    ∧ (parseRow goodRow).deaths_7d.isNaNb = false
    ∧ (parseRow goodRow).vaccinated_pct.isNaNb = false
    ∧ (parseRow goodRow).deaths_7d.isFiniteb = true
    ∧ (parseRow goodRow).vaccinated_pct.isFiniteb = true :=
  loaded_rows_date_and_finiteness [goodRow] (parseRow goodRow) (by decide)

/-- Rows in descending date order: both survive the loader unchanged. -/
def outOfOrderRows : List RawRow :=
  [⟨"2021-01-02", "1", "2"⟩, ⟨"2021-01-01", "1", "2"⟩]

/-- The same valid row twice: both copies survive the loader. -/
def duplicateDateRows : List RawRow := [goodRow, goodRow]

/-- C5 counterexample: the loader neither sorts nor deduplicates — a CSV in
descending date order loads both rows in input order (not ascending), and a
CSV with a repeated date keeps both copies. -/
theorem loaded_sequence_not_sorted_nor_deduped :
    (processData outOfOrderRows).length = 2
    ∧ datesSortedB (dataDates (processData outOfOrderRows)) = false
    ∧ (processData duplicateDateRows).length = 2
    ∧ datesSortedB (dataDates (processData duplicateDateRows)) = false :=
  ⟨by decide, by decide, by decide, by decide⟩

/-- datesSortedB is the strict chain condition. -/
theorem datesSortedB_eq_true_iff : ∀ l : List ℤ, datesSortedB l = true ↔ l.Chain' (· < ·)
  | [] => by simp [datesSortedB]
  | [_] => by simp [datesSortedB]
  | a :: b :: rest => by
    rw [datesSortedB, Bool.and_eq_true, decide_eq_true_eq, List.chain'_cons,
        datesSortedB_eq_true_iff (b :: rest)]

/-- C5 amended: the loader preserves the input row order exactly (it is map
followed by filter, nothing more), so the loaded sequence is strictly sorted
by date — ascending with no duplicates — precisely when the surviving input
rows already are; in particular whenever the whole mapped input is sorted. -/
theorem loader_preserves_order_sorted (raw : List RawRow)
    (h : datesSortedB (dataDates (raw.map parseRow)) = true) :
    processData raw = (raw.map parseRow).filter rowValid
    ∧ datesSortedB (dataDates (processData raw)) = true := by
  refine ⟨rfl, ?_⟩
  have hsub : (dataDates (processData raw)).Sublist (dataDates (raw.map parseRow)) :=
    List.Sublist.filterMap _ (List.filter_sublist _)
  have hp : (dataDates (raw.map parseRow)).Pairwise (· < ·) :=
    List.chain'_iff_pairwise.mp ((datesSortedB_eq_true_iff _).mp h)
  exact (datesSortedB_eq_true_iff _).mpr (List.chain'_iff_pairwise.mpr (hp.sublist hsub))

/-- Rows already in ascending date order. -/
def sortedInputRows : List RawRow :=
  [⟨"2021-01-01", "1", "2"⟩, ⟨"2021-01-02", "1", "2"⟩]

/-- C5 witness: an already-sorted CSV loads to a sorted sequence. -/
theorem loader_preserves_order_sorted_witness :
    processData sortedInputRows = (sortedInputRows.map parseRow).filter rowValid
    ∧ datesSortedB (dataDates (processData sortedInputRows)) = true :=
  loader_preserves_order_sorted sortedInputRows (by decide)

/-- C6: crossing from above to below the mobile breakpoint changes the
requested x-axis tick count from 6 to 4 and applies the mobile stroke
override to the lines it covers: the deaths line drops from stroke width 1.8
to 1.5 (and opacity 0.8 to 0.75), while the vaccination line, for which the
override defines nothing, keeps its style. -/
theorem mobile_redraw_ticks_and_stroke (wD wM : ℚ) (data : List DataPoint) (s : Scales)
    (hD : mobileBreakpoint < wD) (hM : wM < mobileBreakpoint) :
    drawAxes (isMobileW wD mobileBreakpoint) =
      [Prim.axis "axis axis--x" 6, Prim.axis "axis axis--left" 5, Prim.axis "axis axis--right" 4]
    ∧ drawAxes (isMobileW wM mobileBreakpoint) =
      [Prim.axis "axis axis--x" 4, Prim.axis "axis axis--left" 5, Prim.axis "axis axis--right" 4]
    ∧ drawLines (isMobileW wD mobileBreakpoint) data s =
      [Prim.path "line line--deaths" (deathsSegments data s) (9 / 5) (4 / 5),
       Prim.path "line line--vaccination" (vaccSegments data s) (9 / 5) (4 / 5)]
    ∧ drawLines (isMobileW wM mobileBreakpoint) data s =
      [Prim.path "line line--deaths" (deathsSegments data s) (3 / 2) (3 / 4),
       Prim.path "line line--vaccination" (vaccSegments data s) (9 / 5) (4 / 5)] := by
  have hDm : isMobileW wD mobileBreakpoint = false := by
    simp only [isMobileW, decide_eq_false_iff_not]
    exact not_le.mpr hD
  have hMm : isMobileW wM mobileBreakpoint = true := by
    simp only [isMobileW, decide_eq_true_eq]
    exact le_of_lt hM
  refine ⟨?_, ?_, ?_, ?_⟩ <;>
    simp [drawAxes, drawLines, hDm, hMm, getTickCount, getResponsiveLineStyle,
          deathsLineStyle, vaccinationLineStyle, mobileDeathsLineStyle]

/-- C6 witness: at viewport widths 800 and 320 around the 480 breakpoint. -/
theorem mobile_redraw_ticks_and_stroke_witness :
    drawAxes (isMobileW 800 mobileBreakpoint) =
      [Prim.axis "axis axis--x" 6, Prim.axis "axis axis--left" 5, Prim.axis "axis axis--right" 4]
    ∧ drawAxes (isMobileW 320 mobileBreakpoint) =
      [Prim.axis "axis axis--x" 4, Prim.axis "axis axis--left" 5, Prim.axis "axis axis--right" 4]
    ∧ drawLines (isMobileW 800 mobileBreakpoint) [] (buildScales [] mainConfig) =
      [Prim.path "line line--deaths" (deathsSegments [] (buildScales [] mainConfig)) (9 / 5) (4 / 5),
       Prim.path "line line--vaccination" (vaccSegments [] (buildScales [] mainConfig)) (9 / 5) (4 / 5)]
    ∧ drawLines (isMobileW 320 mobileBreakpoint) [] (buildScales [] mainConfig) =
      [Prim.path "line line--deaths" (deathsSegments [] (buildScales [] mainConfig)) (3 / 2) (3 / 4),
       Prim.path "line line--vaccination" (vaccSegments [] (buildScales [] mainConfig)) (9 / 5) (4 / 5)] :=
  mobile_redraw_ticks_and_stroke 800 320 [] (buildScales [] mainConfig)
    (by norm_num [mobileBreakpoint]) (by norm_num [mobileBreakpoint])

/-- While every next call arrives strictly before the pending fire time, the
timer is cleared and rescheduled each time, so only the final schedule
fires. -/
theorem debounceFires_pending_burst {α : Type} (wait : ℚ) :
    ∀ (rest : List (ℚ × α)) (t : ℚ) (a : α),
      List.Chain' (fun e f : ℚ × α => f.1 < e.1 + wait) ((t, a) :: rest) →
      debounceFires wait (some (t + wait, a)) rest =
        [((((t, a) :: rest).getLastD (t, a)).1 + wait, (((t, a) :: rest).getLastD (t, a)).2)]
  | [], t, a, _ => by simp [debounceFires]
  | (t2, a2) :: rest, t, a, h => by
    have hlt : t2 < t + wait := (List.chain'_cons.mp h).1
    have ih := debounceFires_pending_burst wait rest t2 a2 (List.chain'_cons.mp h).2
    simp only [debounceFires, not_le.mpr hlt, if_false, ih, List.getLastD_cons]

/-- C9: for a burst of calls — a non-empty, time-ordered sequence in which
each call arrives strictly within the wait window of its predecessor — the
debounced function fires exactly once, at the last call time plus the fixed
delay, with the last call's arguments (each earlier pending timer is cleared
and rescheduled by the next call). -/
theorem debounce_fires_once_after_burst {α : Type} (wait t : ℚ) (a : α)
    (rest : List (ℚ × α))
    (hburst : List.Chain' (fun e f : ℚ × α => f.1 < e.1 + wait) ((t, a) :: rest)) :
    debounceRun wait ((t, a) :: rest) =
      [((((t, a) :: rest).getLastD (t, a)).1 + wait, (((t, a) :: rest).getLastD (t, a)).2)] := by
  show debounceFires wait none ((t, a) :: rest) = _
  rw [debounceFires]
  exact debounceFires_pending_burst wait rest t a hburst

/-- C9 witness: three resize events at times 0, 100, 150 with a 250ms delay
fire exactly once, at time 400, with the last event's payload. -/
theorem debounce_fires_once_after_burst_witness :
    debounceRun 250 [((0 : ℚ), (1 : ℕ)), (100, 2), (150, 3)] = [(400, 3)] := by
  have h := debounce_fires_once_after_burst 250 0 1 [((100 : ℚ), (2 : ℕ)), (150, 3)]
    (by norm_num [List.chain'_cons, List.chain'_singleton])
  simp only [List.getLastD_cons, List.getLastD_nil] at h
  rw [h]
  norm_num

/-- C10: whenever loading succeeds (the filtered sequence is non-empty), the
loaded sequence satisfies validateData — the validator's per-row predicate is
the loader's filter predicate, and the non-emptiness check matches the
success condition. -/
theorem loaded_data_satisfies_validateData (raw : List RawRow)
    (h : processData raw ≠ []) : validateData (processData raw) = true := by
  unfold validateData
  rw [Bool.and_eq_true, List.all_eq_true]
  refine ⟨?_, fun p hp => List.of_mem_filter hp⟩
  simp [List.isEmpty_iff, h]

/-- C10 witness: the one-valid-row CSV loads and validates. -/
theorem loaded_data_satisfies_validateData_witness :
    validateData (processData [goodRow]) = true :=
  loaded_data_satisfies_validateData [goodRow] (by decide)

end Infovis
